import Mathlib

/-!
# Verification of the gree_amber_ac device client

A shallow embedding of the device-state model, temperature conversion
table, binding procedure, push/state-update paths and the polling
coordinator of the `gree_amber_ac` integration, together with theorems
settling the specification claims about them.

Conventions of the embedding:
* the Python property dictionary becomes an association list with
  dict-style get/set (`dictGet` / `dictSet`);
* Python `None` becomes `Option.none`; values tracked by the store are
  integers (the wire protocol carries JSON integers for these keys);
* a Python function that can raise returns the unchanged state paired
  with an `Option PyErr` (a raise happens exactly where the source
  raises, before any later mutation), or an `Except PyErr` result;
* Python floats in the temperature table are modelled exactly by `ℚ`:
  every quantity appearing there is of the form `m / 9` with small `m`,
  which doubles represent without any rounding that could change a
  comparison or the `round` result (ties at `.5` never arise for
  denominator 9).
-/

set_option autoImplicit false

namespace GreeAmber

/-- Python exception kinds that the embedded code can raise. -/
inductive PyErr where
  | valueError
  | typeError
  | indexError
  deriving DecidableEq, Repr

/-- Dictionary lookup on an association list (`dict.get`): the binding
for the key, `none` when absent. -/
def dictGet {α : Type} (d : List (String × α)) (k : String) : Option α :=
  (d.find? (fun p => p.1 = k)).map (·.2)

/-- Dictionary update on an association list (`dict[k] = v`): replaces
the binding in place when present, appends otherwise. -/
def dictSet {α : Type} (d : List (String × α)) (k : String) (v : α) : List (String × α) :=
  match d with
  | [] => [(k, v)]
  | p :: rest => if p.1 = k then (k, v) :: rest else p :: dictSet rest k v

/-- `dict.update(kwargs)`: apply every binding of `kw` in order. -/
def dictUpdate {α : Type} (d : List (String × α)) (kw : List (String × α)) :
    List (String × α) :=
  kw.foldl (fun acc p => dictSet acc p.1 p.2) d

/-- The protocol property vocabulary (`class Props(enum.Enum)`). -/
inductive Props where
  | POWER | MODE
  | HUM_SET | HUM_SENSOR | CLEAN_FILTER | WATER_FULL | DEHUMIDIFIER_MODE
  | TEMP_SET | TEMP_SENSOR | TEMP_UNIT | TEMP_BIT
  | FAN_SPEED | FRESH_AIR | XFAN | ANION | SLEEP | SLEEP_MODE | LIGHT
  | SWING_HORIZ | SWING_VERT | QUIET | TURBO | STEADY_HEAT | POWER_SAVE
  | UNKNOWN_HEATCOOLTYPE
  deriving DecidableEq, Repr

/-- The wire token of each property (`Props.<X>.value`). -/
def Props.value : Props → String
  | .POWER => "Pow"
  | .MODE => "Mod"
  | .HUM_SET => "Dwet"
  | .HUM_SENSOR => "DwatSen"
  | .CLEAN_FILTER => "Dfltr"
  | .WATER_FULL => "DwatFul"
  | .DEHUMIDIFIER_MODE => "Dmod"
  | .TEMP_SET => "SetTem"
  | .TEMP_SENSOR => "TemSen"
  | .TEMP_UNIT => "TemUn"
  | .TEMP_BIT => "TemRec"
  | .FAN_SPEED => "WdSpd"
  | .FRESH_AIR => "Air"
  | .XFAN => "Blo"
  | .ANION => "Health"
  | .SLEEP => "SwhSlp"
  | .SLEEP_MODE => "SlpMod"
  | .LIGHT => "Lig"
  | .SWING_HORIZ => "SwingLfRig"
  | .SWING_VERT => "SwUpDn"
  | .QUIET => "Quiet"
  | .TURBO => "Tur"
  | .STEADY_HEAT => "StHt"
  | .POWER_SAVE => "SvSt"
  | .UNKNOWN_HEATCOOLTYPE => "HeatCoolType"

/-- The two cipher variants of the protocol. -/
inductive CipherVariant where
  | v1
  | v2
  deriving DecidableEq, Repr

/-- A cipher object: a variant plus its (possibly not yet designated)
session key. -/
structure CipherS where
  variant : CipherVariant
  key : Option String
  deriving DecidableEq, Repr

/-- The mutable state of a `Device` object that the claims touch:
`_properties`, `_dirty`, `hid`, `version`, `check_version`, `_beep`
and `device_cipher`. -/
structure DeviceState where
  properties : List (String × Int)
  dirty : List String
  hid : Option String
  version : Option String
  checkVersion : Bool
  beep : Bool
  deviceCipher : Option CipherS
  deriving DecidableEq, Repr

/-- A freshly constructed device (`Device.__init__`). -/
def DeviceState.init : DeviceState :=
  { properties := []
    dirty := []
    hid := none
    version := none
    checkVersion := true
    beep := false
    deviceCipher := none }

/-- `Device.get_property`: generic lookup of a tracked property.  (The
source short-circuits to `None` on an empty dict, which coincides with
lookup in the empty association list.) -/
def get_property (s : DeviceState) (name : Props) : Option Int :=
  dictGet s.properties name.value

/-- `Device.set_property`: a no-op when the stored value already equals
the new one, otherwise store the value and mark the key dirty unless it
is already marked. -/
def set_property (s : DeviceState) (name : Props) (value : Int) : DeviceState :=
  if dictGet s.properties name.value = some value then s
  else
    { s with
      properties := dictSet s.properties name.value value
      dirty := if name.value ∈ s.dirty then s.dirty else s.dirty ++ [name.value] }

/-- Python `round` (round half to even) on an exact rational.  (In the
embedded code the argument is always of the form `m / 9`, so the
half-way tie cases never arise and doubles agree with `ℚ` exactly.) -/
def pythonRound (q : ℚ) : ℤ :=
  let f := ⌊q⌋
  let r := q - (f : ℚ)
  if r < 1 / 2 then f
  else if 1 / 2 < r then f + 1
  else if f % 2 = 0 then f else f + 1

/-- One row of the temperature table: the dict
`{"f": temp_f, "temSet": temSet, "temRec": temRec}`. -/
structure TempRecord where
  f : Int
  temSet : Int
  temRec : Int
  deriving DecidableEq, Repr

/-- `generate_temperature_record(temp_f)`. -/
def generate_temperature_record (temp_f : Int) : TempRecord :=
  let temSet := pythonRound (((temp_f : ℚ) - 32) * 5 / 9)
  let temRec : Int :=
    if (((temp_f : ℚ) - 32) * 5 / 9 - (temSet : ℚ)) > 0 then 1 else 0
  { f := temp_f, temSet := temSet, temRec := temRec }

def TEMP_MIN : Int := 8
def TEMP_MAX : Int := 30
def TEMP_OFFSET : Int := 40
def TEMP_MIN_F : Int := 46
def TEMP_MAX_F : Int := 86
def TEMP_MIN_TABLE : Int := -60
def TEMP_MAX_TABLE : Int := 60
def TEMP_MIN_TABLE_F : Int := -76
def TEMP_MAX_TABLE_F : Int := 140

/-- `TEMP_TABLE`: one record per integer Fahrenheit value in
`range(TEMP_MIN_TABLE_F, TEMP_MAX_TABLE_F + 1)`. -/
def TEMP_TABLE : List TempRecord :=
  (List.range (TEMP_MAX_TABLE_F + 1 - TEMP_MIN_TABLE_F).toNat).map
    (fun i : Nat => generate_temperature_record (TEMP_MIN_TABLE_F + (i : Int)))

/-- `Device.temperature_units`. -/
def temperature_units (s : DeviceState) : Option Int :=
  get_property s Props.TEMP_UNIT

/-- `Device._convert_to_units(value, bit)` with the unit setting passed
explicitly.  `value` is an `Option` because `target_temperature` feeds
the raw store lookup in: a `none` in Fahrenheit mode would make the
Python comparison `value < TEMP_MIN_TABLE` raise a `TypeError`, and an
empty `matching_temset` would make `matching_temset[0]` raise an
`IndexError`. -/
def convert_to_units (unit : Option Int) (value : Option Int) (bit : Option Int) :
    Except PyErr (Option Int) :=
  if unit ≠ some 1 then .ok value
  else
    match value with
    | none => .error .typeError
    | some v =>
      if v < TEMP_MIN_TABLE ∨ v > TEMP_MAX_TABLE then .error .valueError
      else
        let matching := TEMP_TABLE.filter (fun t => t.temSet == v)
        match matching.find? (fun t => bit == some t.temRec) with
        | some t => .ok (some t.f)
        | none =>
          match matching with
          | [] => .error .indexError
          | t :: _ => .ok (some t.f)

/-- `Device.target_temperature` (getter). -/
def target_temperature (s : DeviceState) : Except PyErr (Option Int) :=
  convert_to_units (temperature_units s) (get_property s Props.TEMP_SET)
    (get_property s Props.TEMP_BIT)

/-- Decimal parse of a digit run (`int(...)` on the strings the version
regex can produce): `none` when empty or containing a non-digit. -/
def parseDigits (cs : List Char) : Option Nat :=
  if cs ≠ [] ∧ cs.all Char.isDigit then
    some (cs.foldl (fun n c => n * 10 + (c.toNat - 48)) 0)
  else none

/-- `self.version and int(self.version.split(".")[0])`: an unset
version (`None`) and the falsy empty string short-circuit the `and`
and compare unequal to 4; otherwise `int` is applied to the segment
before the first dot, which for the `[\d.]`-strings the version regex
produces either parses as a number or — when that leading segment is
empty, e.g. version `".31"` — raises a `ValueError`.  The raise
happens before the accessor's `try` block, so it propagates
uncaught. -/
def majorVersion : Option String → Except PyErr (Option Nat)
  | none => .ok none
  | some s =>
    if s.toList = [] then .ok none
    else
      match parseDigits (s.toList.takeWhile (fun c => c ≠ '.')) with
      | some n => .ok (some n)
      | none => .error .valueError

/-- The `try` body of `current_temperature` around one conversion: a
`ValueError` is caught and replaced by the target-temperature fallback
(the source catches only `ValueError`; a hypothetical `IndexError`
would propagate). -/
def conv_or_target (s : DeviceState) (v : Int) : Except PyErr (Option Int) :=
  match convert_to_units (temperature_units s) (some v) (get_property s Props.TEMP_BIT) with
  | .ok r => .ok r
  | .error .valueError => target_temperature s
  | .error e => .error e

/-- `Device.current_temperature`: when a raw reading is present, `v`
is computed first, outside the `try` block, so a `ValueError` from
`int` on a version like `".31"` propagates uncaught; otherwise a major
version of exactly 4 means the sensor reports the plain value; any
other parsed outcome subtracts `TEMP_OFFSET` from a non-zero reading;
a reading of 0 (outside the version-4 branch), a missing reading, or a
caught `ValueError` from conversion falls back to the target
temperature. -/
def current_temperature (s : DeviceState) : Except PyErr (Option Int) :=
  match get_property s Props.TEMP_SENSOR with
  | some prop =>
    match majorVersion s.version with
    | .error e => .error e
    | .ok v =>
      if v = some 4 then conv_or_target s prop
      else if prop ≠ 0 then conv_or_target s (prop - TEMP_OFFSET)
      else target_temperature s
  | none => target_temperature s

/-- `Device.target_temperature` (setter): validate, then store.  The
second component records a raised `ValueError`; a raise happens before
any store/dirty mutation, so the state component is returned unchanged
there, exactly as the Python object is left unmodified. -/
def target_temperature_set (s : DeviceState) (value : Int) : DeviceState × Option PyErr :=
  if temperature_units s = some 1 then
    if (generate_temperature_record value).temSet > TEMP_MAX ∨
        (generate_temperature_record value).temSet < TEMP_MIN then
      (s, some .valueError)
    else
      (set_property
        (set_property s Props.TEMP_SET (generate_temperature_record value).temSet)
        Props.TEMP_BIT (generate_temperature_record value).temRec,
        none)
  else
    if value > TEMP_MAX ∨ value < TEMP_MIN then (s, some .valueError)
    else (set_property s Props.TEMP_SET value, none)

/-- `Device.target_humidity` (getter), exactly as written: the body
computes `15 + (self.get_property(Props.HUM_SET) * 5)` but never
returns it, so a present value yields Python `None`, and an absent one
makes `None * 5` raise a `TypeError`. -/
def target_humidity (s : DeviceState) : Except PyErr (Option Int) :=
  match get_property s Props.HUM_SET with
  | none => .error .typeError
  | some _ => .ok none

/-- The value the specification says `target_humidity` is intended to
return: the computed formula `15 + store[HUM_SET] * 5`. -/
def target_humidity_spec (s : DeviceState) : Option Int :=
  (get_property s Props.HUM_SET).map (fun h => 15 + h * 5)

/-- Python `bool(...)` on an optional integer: `None` and `0` are
falsy. -/
def pyBool : Option Int → Bool
  | none => false
  | some v => v != 0

/-- `Device.power`. -/
def power (s : DeviceState) : Bool := pyBool (get_property s Props.POWER)

/-- `Device.fresh_air`. -/
def fresh_air (s : DeviceState) : Bool := pyBool (get_property s Props.FRESH_AIR)

/-- `Device.xfan`. -/
def xfan (s : DeviceState) : Bool := pyBool (get_property s Props.XFAN)

/-- `Device.anion`. -/
def anion (s : DeviceState) : Bool := pyBool (get_property s Props.ANION)

/-- `Device.sleep`. -/
def sleep (s : DeviceState) : Bool := pyBool (get_property s Props.SLEEP)

/-- `Device.light`. -/
def light (s : DeviceState) : Bool := pyBool (get_property s Props.LIGHT)

/-- `Device.turbo`. -/
def turbo (s : DeviceState) : Bool := pyBool (get_property s Props.TURBO)

/-- `Device.steady_heat`. -/
def steady_heat (s : DeviceState) : Bool := pyBool (get_property s Props.STEADY_HEAT)

/-- `Device.power_save`. -/
def power_save (s : DeviceState) : Bool := pyBool (get_property s Props.POWER_SAVE)

/-- `Device.clean_filter`. -/
def clean_filter (s : DeviceState) : Bool := pyBool (get_property s Props.CLEAN_FILTER)

/-- `Device.water_full`. -/
def water_full (s : DeviceState) : Bool := pyBool (get_property s Props.WATER_FULL)

/-- A character the version regex class `[\d.]` accepts. -/
def versionChar (c : Char) : Bool := c.isDigit || c = '.'

/-- Leftmost suffix of the character list that directly follows a `V`
and consists entirely of `[\d.]` characters (at least one). -/
def findVer : List Char → Option (List Char)
  | [] => none
  | c :: rest =>
    if c = 'V' ∧ rest ≠ [] ∧ rest.all versionChar then some rest
    else findVer rest

/-- `re.search(r"(?<=V)([\d.]+)\.bin$", hid)` followed by `group(1)`:
when the firmware id ends in `.bin`, the digits-and-dots run between a
`V` lookbehind and that final `.bin`, chosen leftmost as `re.search`
does; `none` when no position matches. -/
def parseVersion (hid : String) : Option String :=
  match hid.toList.reverse with
  | 'n' :: 'i' :: 'b' :: '.' :: rest =>
    (findVer rest.reverse).map (fun cs => String.mk cs)
  | _ => none

/-- `Device.handle_state_update(**kwargs)`: the optional `hid` entry is
popped first (passed separately here), the rest is merged into the
property store, and the one-shot firmware-offset detection runs when
the update carries a raw temperature-sensor reading. -/
def handle_state_update (s : DeviceState) (hid? : Option String)
    (kw : List (String × Int)) : DeviceState :=
  let s1 :=
    match hid? with
    | some h => { s with hid := some h, version := parseVersion h }
    | none => s
  let s2 := { s1 with properties := dictUpdate s1.properties kw }
  if s2.checkVersion ∧ kw.any (fun p => p.1 == Props.TEMP_SENSOR.value) then
    let s3 := { s2 with checkVersion := false }
    match get_property s3 Props.TEMP_SENSOR with
    | some t =>
      if t ≠ 0 ∧ t < TEMP_OFFSET then { s3 with version := some "4.0" } else s3
    | none => s3
  else s2

/-- Errors a device operation can raise across the API boundary. -/
inductive DevErr where
  | deviceTimeout
  | deviceNotBound
  deriving DecidableEq, Repr

/-- Outcome of one `__bind_internal` attempt: the bind wait either
times out (`asyncio.TimeoutError`) or completes, in which case the
device's confirmation may or may not have designated a session key. -/
inductive AttemptOutcome where
  | timeout
  | completed (designatedKey : Option String)
  deriving DecidableEq, Repr

/-- Modelled from the spec: the transport layer (`DeviceProtocol2` in
the missing `network.py`) records the negotiated cipher on the device
when a bind confirmation designates a session key; a confirmation that
never designates a key leaves `device_cipher` unset, which `bind`
then reports as a not-bound error. -/
def apply_attempt (s : DeviceState) (variant : CipherVariant) :
    AttemptOutcome → DeviceState
  | .timeout => s
  | .completed none => s
  | .completed (some k) =>
    { s with deviceCipher := some { variant := variant, key := some k } }

/-- `Device.bind` in the no-key, no-explicit-cipher mode: try V1, on
`asyncio.TimeoutError` try V2; a second timeout raises
`DeviceTimeoutError`; an exchange that completes without a designated
key raises `DeviceNotBoundError`.  The first component is the ordered
trace of cipher variants attempted. -/
def bind_no_key (s : DeviceState) (o1 o2 : AttemptOutcome) :
    List CipherVariant × DeviceState × Option DevErr :=
  match o1 with
  | .timeout =>
    match o2 with
    | .timeout => ([.v1, .v2], s, some .deviceTimeout)
    | o =>
      let s2 := apply_attempt s .v2 o
      ([.v1, .v2], s2,
        if s2.deviceCipher.isSome then none else some .deviceNotBound)
  | o =>
    let s1 := apply_attempt s .v1 o
    ([.v1], s1,
      if s1.deviceCipher.isSome then none else some .deviceNotBound)

/-- Outcome of the network send inside `push_state_update`. -/
inductive SendOutcome where
  | ok
  | timeout
  deriving DecidableEq, Repr

/-- The command payload `push_state_update` builds from the dirty keys:
each dirty key with its stored value; a dirty target temperature drags
the compensation bit and the unit along; the buzzer-suppression flag is
appended unless beep is enabled. -/
def push_props (s : DeviceState) : List (String × Option Int) :=
  let base := s.dirty.foldl
    (fun acc name =>
      let acc1 := dictSet acc name (dictGet s.properties name)
      if name == Props.TEMP_SET.value then
        dictSet
          (dictSet acc1 Props.TEMP_BIT.value
            (dictGet s.properties Props.TEMP_BIT.value))
          Props.TEMP_UNIT.value (dictGet s.properties Props.TEMP_UNIT.value)
      else acc1)
    []
  if !s.beep then dictSet base "Buzzer_ON_OFF" (some 1) else base

/-- `Device.push_state_update`: early return when nothing is dirty
(no bind, no send); otherwise bind implicitly when no cipher is set
(a bind failure propagates before the dirty set is touched), build the
command payload, clear the dirty set, and send — a send timeout raises
`DeviceTimeoutError` after the clear.  The middle component is the
payload actually sent (`none` when no send was attempted). -/
def push_state_update (s : DeviceState) (o1 o2 : AttemptOutcome)
    (send : SendOutcome) :
    DeviceState × Option (List (String × Option Int)) × Option DevErr :=
  if s.dirty = [] then (s, none, none)
  else
    let afterBind : DeviceState × Option DevErr :=
      match s.deviceCipher with
      | some _ => (s, none)
      | none =>
        let r := bind_no_key s o1 o2
        (r.2.1, r.2.2)
    match afterBind with
    | (s1, some e) => (s1, none, some e)
    | (s1, none) =>
      let props := push_props s1
      let s2 := { s1 with dirty := [] }
      match send with
      | .ok => (s2, some props, none)
      | .timeout => (s2, some props, some .deviceTimeout)

/-- Numeric settings of `DeviceDataUpdateCoordinator`: the consecutive
error threshold `MAX_ERRORS`, the polling interval `UPDATE_INTERVAL`
(seconds) and `MAX_EXPECTED_RESPONSE_TIME_INTERVAL` (seconds). -/
structure CoordConfig where
  maxErrors : Nat
  updateInterval : Int
  maxExpected : Int
  deriving DecidableEq, Repr

/-- The coordinator's per-device polling-health state: `_error_count`,
the host framework's `last_update_success` flag, `_last_response_time`
and `_last_error_time` (timestamps as integers). -/
structure CoordState where
  errorCount : Nat
  lastUpdateSuccess : Bool
  lastResponseTime : Int
  lastErrorTime : Option Int
  deriving DecidableEq, Repr

/-- Outcome of `device.update_state()` inside one polling cycle. -/
inductive UpdateOutcome where
  | notBound
  | timeout
  | success
  deriving DecidableEq, Repr

/-- `DeviceDataUpdateCoordinator._async_update_data` for one cycle at
time `now`: the returned flag is `true` exactly when the cycle raises
`UpdateFailed`.  A not-bound error always raises; a timeout increments
the error counter and raises only when `last_update_success` still
holds and the counter has reached the threshold; a success either
resets the counter (fresh response) or, when the last response is
stale, increments it at most once per polling interval, then applies
the same threshold escalation.  `_last_response_time` is updated only
when the cycle returns without raising. -/
def async_update_data (cfg : CoordConfig) (st : CoordState)
    (o : UpdateOutcome) (now : Int) : CoordState × Bool :=
  match o with
  | .notBound => (st, true)
  | .timeout =>
    let st1 := { st with errorCount := st.errorCount + 1 }
    if st1.lastUpdateSuccess ∧ st1.errorCount ≥ cfg.maxErrors then (st1, true)
    else ({ st1 with lastResponseTime := now }, false)
  | .success =>
    let st1 :=
      if cfg.updateInterval ≠ 0 ∧ now - st.lastResponseTime ≥ cfg.maxExpected then
        match st.lastErrorTime with
        | none =>
          { st with errorCount := st.errorCount + 1, lastErrorTime := some now }
        | some t =>
          if now - cfg.updateInterval ≥ t then
            { st with errorCount := st.errorCount + 1, lastErrorTime := some now }
          else st
      else { st with errorCount := 0 }
    if st1.lastUpdateSuccess ∧ st1.errorCount ≥ cfg.maxErrors then (st1, true)
    else ({ st1 with lastResponseTime := now }, false)

/-- Modelled from the spec: the host framework
(`DataUpdateCoordinator`, not part of this repository) marks the cycle
as unsuccessful when the refresh raises `UpdateFailed` and as
successful otherwise; one polling cycle is the refresh followed by that
bookkeeping. -/
def coordinator_step (cfg : CoordConfig) (st : CoordState)
    (o : UpdateOutcome) (now : Int) : CoordState :=
  let r := async_update_data cfg st o now
  { r.1 with lastUpdateSuccess := !r.2 }

/-- Whether the cycle raised `UpdateFailed` (read-health reported
failed for this cycle). -/
def cycle_failed (cfg : CoordConfig) (st : CoordState)
    (o : UpdateOutcome) (now : Int) : Bool :=
  (async_update_data cfg st o now).2

/-- A sequence of polling cycles: fold `coordinator_step` over a list
of (outcome, time) pairs. -/
def coord_run (cfg : CoordConfig) (st : CoordState)
    (steps : List (UpdateOutcome × Int)) : CoordState :=
  steps.foldl (fun acc p => coordinator_step cfg acc p.1 p.2) st

/-- The coordinator configuration of the C9 scenario: error threshold
`MAX_ERRORS = 3`, a 30-second polling interval and a 90-second maximum
expected response interval. -/
def coord_cfg3 : CoordConfig :=
  { maxErrors := 3, updateInterval := 30, maxExpected := 90 }

/-- A healthy starting state: no consecutive errors, last cycle
successful, a response just seen at time 0. -/
def coord_healthy : CoordState :=
  { errorCount := 0, lastUpdateSuccess := true, lastResponseTime := 0,
    lastErrorTime := none }

theorem set_property_noop (s : DeviceState) (name : Props) (v : Int)
    (h : get_property s name = some v) : set_property s name v = s := by
  simp only [get_property] at h
  simp [set_property, h]

theorem dictGet_dictSet_self (d : List (String × Int)) (k : String) (v : Int) :
    dictGet (dictSet d k v) k = some v := by
  induction d with
  | nil => simp [dictGet, dictSet]
  | cons p rest ih =>
    by_cases h : p.1 = k
    · simp [dictGet, dictSet, h]
    · simp only [dictSet, if_neg h]
      simpa [dictGet, List.find?, h] using ih

/-- C6: setting a property to its stored value changes nothing at all;
setting it to a different value stores it and marks the key dirty
exactly when it was not already marked; a repeated set of the same new
value is then a no-op, so the key is marked at most once. -/
theorem setProperty_dirty_tracking (s : DeviceState) (name : Props) (v : Int) :
    (get_property s name = some v → set_property s name v = s) ∧
    (get_property s name ≠ some v →
      get_property (set_property s name v) name = some v ∧
      (name.value ∉ s.dirty →
        (set_property s name v).dirty = s.dirty ++ [name.value]) ∧
      (name.value ∈ s.dirty → (set_property s name v).dirty = s.dirty) ∧
      set_property (set_property s name v) name v = set_property s name v) := by
  constructor
  · exact set_property_noop s name v
  · intro h
    simp only [get_property] at h
    have hset : set_property s name v =
        { s with
          properties := dictSet s.properties name.value v
          dirty := if name.value ∈ s.dirty then s.dirty else s.dirty ++ [name.value] } := by
      simp [set_property, h]
    refine ⟨?_, ?_, ?_, ?_⟩
    · simp [get_property, hset, dictGet_dictSet_self]
    · intro hmem
      simp [hset, hmem]
    · intro hmem
      simp [hset, hmem]
    · exact set_property_noop _ name v
        (by simp [get_property, hset, dictGet_dictSet_self])

/-- C6 witness: concrete run where the key is fresh. -/
theorem setProperty_dirty_tracking_witness :
    get_property DeviceState.init Props.POWER ≠ some 1 ∧
    (set_property DeviceState.init Props.POWER 1).dirty = ["Pow"] :=
  ⟨by decide,
   by
    have h := (setProperty_dirty_tracking DeviceState.init Props.POWER 1).2 (by decide)
    simpa using h.2.1 (by decide)⟩

theorem pyBool_absent_or_zero (o : Option Int) (h : o = none ∨ o = some 0) :
    pyBool o = false := by
  rcases h with h | h <;> simp [pyBool, h]

/-- C10: every boolean accessor reads an absent wire key, or a stored
0, as `False` — the public boolean interface does not distinguish an
absent key from a stored 0 and never fails on absence. -/
theorem bool_accessors_absent_false (s : DeviceState) :
    (get_property s Props.POWER = none ∨ get_property s Props.POWER = some 0 →
      power s = false) ∧
    (get_property s Props.FRESH_AIR = none ∨ get_property s Props.FRESH_AIR = some 0 →
      fresh_air s = false) ∧
    (get_property s Props.XFAN = none ∨ get_property s Props.XFAN = some 0 →
      xfan s = false) ∧
    (get_property s Props.ANION = none ∨ get_property s Props.ANION = some 0 →
      anion s = false) ∧
    (get_property s Props.SLEEP = none ∨ get_property s Props.SLEEP = some 0 →
      sleep s = false) ∧
    (get_property s Props.LIGHT = none ∨ get_property s Props.LIGHT = some 0 →
      light s = false) ∧
    (get_property s Props.TURBO = none ∨ get_property s Props.TURBO = some 0 →
      turbo s = false) ∧
    (get_property s Props.STEADY_HEAT = none ∨ get_property s Props.STEADY_HEAT = some 0 →
      steady_heat s = false) ∧
    (get_property s Props.POWER_SAVE = none ∨ get_property s Props.POWER_SAVE = some 0 →
      power_save s = false) ∧
    (get_property s Props.CLEAN_FILTER = none ∨ get_property s Props.CLEAN_FILTER = some 0 →
      clean_filter s = false) ∧
    (get_property s Props.WATER_FULL = none ∨ get_property s Props.WATER_FULL = some 0 →
      water_full s = false) :=
  ⟨fun h => pyBool_absent_or_zero _ h, fun h => pyBool_absent_or_zero _ h,
   fun h => pyBool_absent_or_zero _ h, fun h => pyBool_absent_or_zero _ h,
   fun h => pyBool_absent_or_zero _ h, fun h => pyBool_absent_or_zero _ h,
   fun h => pyBool_absent_or_zero _ h, fun h => pyBool_absent_or_zero _ h,
   fun h => pyBool_absent_or_zero _ h, fun h => pyBool_absent_or_zero _ h,
   fun h => pyBool_absent_or_zero _ h⟩

/-- C10 witness: a fresh device (no keys at all) reads `power` as
`False`, and a stored 0 reads `water_full` as `False`. -/
theorem bool_accessors_absent_false_witness :
    power DeviceState.init = false ∧
    water_full { DeviceState.init with properties := [("DwatFul", 0)] } = false :=
  ⟨(bool_accessors_absent_false DeviceState.init).1 (Or.inl rfl),
   (bool_accessors_absent_false
      { DeviceState.init with properties := [("DwatFul", 0)] }).2.2.2.2.2.2.2.2.2.2
      (Or.inr rfl)⟩

/-- C3: the `target_humidity` getter, as written, computes
`15 + store[HUM_SET] * 5` but never returns it: with `Dwet = 3` the
code yields Python `None` while the intended formula value is 30. -/
theorem target_humidity_defect :
    target_humidity { DeviceState.init with properties := [("Dwet", 3)] } =
      .ok none ∧
    target_humidity_spec { DeviceState.init with properties := [("Dwet", 3)] } =
      some 30 ∧
    (Except.ok none : Except PyErr (Option Int)) ≠ .ok (some 30) := by
  refine ⟨rfl, rfl, ?_⟩
  intro h
  simp at h

/-- C2 counterexample: a device whose parsed firmware version has
major 4 (here `"4.31"`), with the raw sensor key present as 0, target
temperature 25 and Celsius units: `current_temperature` converts the 0
instead of falling back to the target temperature, so the fallback is
not version-independent. -/
theorem zero_sensor_fallback_counterexample :
    get_property
      { DeviceState.init with
        properties := [("TemSen", 0), ("SetTem", 25), ("TemUn", 0)],
        version := some "4.31" } Props.TEMP_SENSOR = some 0 ∧
    current_temperature
      { DeviceState.init with
        properties := [("TemSen", 0), ("SetTem", 25), ("TemUn", 0)],
        version := some "4.31" } = .ok (some 0) ∧
    target_temperature
      { DeviceState.init with
        properties := [("TemSen", 0), ("SetTem", 25), ("TemUn", 0)],
        version := some "4.31" } = .ok (some 25) ∧
    (Except.ok (some (0 : Int)) : Except PyErr (Option Int)) ≠ .ok (some 25) := by
  refine ⟨rfl, rfl, rfl, ?_⟩
  intro h
  simp at h

/-- C2 amended: a present raw reading of exactly 0 falls back to the
target temperature whenever the version evaluation `self.version and
int(...)` completes without raising and yields something other than 4
(including an unset version); when it yields 4 the 0 is unit-converted
like any reading (in Celsius units the accessor returns 0).  (A
version string with an empty leading segment, such as `".31"`, instead
raises `ValueError` before the accessor's `try` block, so no fallback
happens there either.) -/
theorem zero_sensor_fallback_amended (s : DeviceState) (v : Option Nat)
    (h : get_property s Props.TEMP_SENSOR = some 0)
    (hv : majorVersion s.version = .ok v) :
    (v ≠ some 4 → current_temperature s = target_temperature s) ∧
    (v = some 4 → temperature_units s ≠ some 1 →
      current_temperature s = .ok (some 0)) := by
  constructor
  · intro h4
    simp [current_temperature, h, hv, h4]
  · intro h4 hu
    simp [current_temperature, h, hv, h4, conv_or_target, convert_to_units, hu]

/-- C2 amended, witness: same store as the counterexample but version
`"3.31"` (major 3): the accessor returns the target temperature 25. -/
theorem zero_sensor_fallback_amended_witness :
    current_temperature
      { DeviceState.init with
        properties := [("TemSen", 0), ("SetTem", 25), ("TemUn", 0)],
        version := some "3.31" } = .ok (some 25) := by
  have h :=
    (zero_sensor_fallback_amended
      { DeviceState.init with
        properties := [("TemSen", 0), ("SetTem", 25), ("TemUn", 0)],
        version := some "3.31" } (some 3) rfl rfl).1 (by decide)
  rw [h]
  rfl

/-- The device of the C1 counterexample: a fresh device receiving its
first status update, whose firmware id parses to version `3.31`
(major 3, not 4) and whose first raw sensor reading is 25 — non-zero
and below `TEMP_OFFSET` — with Celsius units and target 20. -/
def offset_detection_input : DeviceState :=
  handle_state_update DeviceState.init
    (some "362001000762+U-CS532AE(LT)V3.31.bin")
    [("TemSen", 25), ("SetTem", 20), ("TemUn", 0)]

/-- C1 counterexample: firmware parsing yields major version 3 (≠ 4)
and the first raw reading 25 is non-zero and below 40, so the claim
says the offset applies and subsequent reads return the conversion of
`25 - 40`.  The code does the opposite: the detection overwrites the
version with `"4.0"` and `current_temperature` returns the conversion
of the raw 25 with no subtraction. -/
theorem offset_detection_counterexample :
    parseVersion "362001000762+U-CS532AE(LT)V3.31.bin" = some "3.31" ∧
    majorVersion (some "3.31") = .ok (some 3) ∧
    offset_detection_input.version = some "4.0" ∧
    current_temperature offset_detection_input = .ok (some 25) ∧
    (Except.ok (some (25 : Int)) : Except PyErr (Option Int)) ≠
      .ok (some (25 - TEMP_OFFSET)) := by
  refine ⟨rfl, rfl, rfl, rfl, ?_⟩
  intro h
  simp [TEMP_OFFSET] at h

/-- C1 amended: the detection does run exactly once, guarded by the
one-shot `check_version` flag, on the first update carrying a raw
sensor reading `t`; but its conclusion is the reverse of the claim's:
a non-zero `t` below `TEMP_OFFSET` makes the device overwrite its
version with `"4.0"` (major 4), after which `current_temperature`
converts the raw reading with no subtraction; otherwise the parsed
version is kept, and whenever the version evaluation completes without
raising and yields something other than 4 it is those devices whose
non-zero readings get `TEMP_OFFSET` subtracted before unit conversion
(a version whose leading segment is empty, such as `".31"`, instead
raises `ValueError` from the accessor, before its `try` block). -/
theorem offset_detection_amended (s : DeviceState) (kw : List (String × Int))
    (t : Int)
    (hcv : s.checkVersion = true)
    (hmem : kw.any (fun p => p.1 == Props.TEMP_SENSOR.value) = true)
    (hval : dictGet (dictUpdate s.properties kw) Props.TEMP_SENSOR.value = some t) :
    ((handle_state_update s none kw).checkVersion = false) ∧
    (t ≠ 0 ∧ t < TEMP_OFFSET →
      (handle_state_update s none kw).version = some "4.0" ∧
      majorVersion (handle_state_update s none kw).version = .ok (some 4)) ∧
    (¬(t ≠ 0 ∧ t < TEMP_OFFSET) →
      (handle_state_update s none kw).version = s.version) ∧
    (∀ s2 kw2, s2.checkVersion = false →
      (handle_state_update s2 none kw2).version = s2.version ∧
      (handle_state_update s2 none kw2).checkVersion = false) ∧
    (∀ s3 p, majorVersion s3.version = .ok (some 4) →
      get_property s3 Props.TEMP_SENSOR = some p →
      current_temperature s3 = conv_or_target s3 p) ∧
    (∀ s3 p v, majorVersion s3.version = .ok v → v ≠ some 4 → p ≠ 0 →
      get_property s3 Props.TEMP_SENSOR = some p →
      current_temperature s3 = conv_or_target s3 (p - TEMP_OFFSET)) := by
  have hget : get_property
      { s with properties := dictUpdate s.properties kw, checkVersion := false }
      Props.TEMP_SENSOR = some t := hval
  refine ⟨?_, ?_, ?_, ?_, ?_, ?_⟩
  · simp only [handle_state_update, hcv, hmem]
    simp only [true_and, if_true]
    rw [hget]
    split
    · split <;> rfl
    · rfl
  · intro ht
    constructor
    · simp only [handle_state_update, hcv, hmem]
      simp only [true_and, if_true]
      rw [hget]
      simp [ht]
    · simp only [handle_state_update, hcv, hmem]
      simp only [true_and, if_true]
      rw [hget]
      simp [ht]
      rfl
  · intro ht
    simp only [handle_state_update, hcv, hmem]
    simp only [true_and, if_true]
    rw [hget]
    simp [ht]
  · intro s2 kw2 hcv2
    constructor <;> simp [handle_state_update, hcv2]
  · intro s3 p h4 hp
    simp [current_temperature, hp, h4]
  · intro s3 p v hv h4 hp0 hp
    simp [current_temperature, hp, hv, h4, hp0]

/-- C1 amended, witness: a fresh device whose first reading is 25
(non-zero, below 40) ends with version `"4.0"`; one whose first reading
is 50 keeps its (unset) version. -/
theorem offset_detection_amended_witness :
    (handle_state_update DeviceState.init none [("TemSen", 25)]).version =
      some "4.0" ∧
    (handle_state_update DeviceState.init none [("TemSen", 50)]).version = none := by
  constructor
  · exact ((offset_detection_amended DeviceState.init [("TemSen", 25)] 25 rfl rfl
      rfl).2.1 (by decide)).1
  · exact ((offset_detection_amended DeviceState.init [("TemSen", 50)] 50 rfl rfl
      rfl).2.2.1 (by decide)).trans rfl

/-- C8: binding with no key and no explicit cipher attempts CipherV1
first and attempts CipherV2 exactly when the V1 attempt times out
(never retrying V1); two timeouts raise the timeout error, and an
exchange that completes without a designated session key raises the
not-bound error. -/
theorem bind_tries_v1_then_v2 (s : DeviceState) (o1 o2 : AttemptOutcome) :
    ((bind_no_key s o1 o2).1.head? = some .v1) ∧
    (CipherVariant.v2 ∈ (bind_no_key s o1 o2).1 ↔ o1 = .timeout) ∧
    ((bind_no_key s o1 o2).1.count .v1 = 1) ∧
    (o1 = .timeout → o2 = .timeout →
      (bind_no_key s o1 o2).2.2 = some .deviceTimeout) ∧
    (s.deviceCipher = none → o1 = .completed none →
      (bind_no_key s o1 o2).2.2 = some .deviceNotBound) ∧
    (s.deviceCipher = none → o1 = .timeout → o2 = .completed none →
      (bind_no_key s o1 o2).2.2 = some .deviceNotBound) := by
  cases o1 with
  | timeout =>
    cases o2 with
    | timeout =>
      refine ⟨rfl, by simp [bind_no_key], rfl, fun _ _ => rfl, ?_, ?_⟩
      · intro _ h; simp at h
      · intro _ _ h; simp at h
    | completed k =>
      cases k with
      | none =>
        refine ⟨rfl, by simp [bind_no_key], rfl, ?_, ?_, ?_⟩
        · intro _ h; simp at h
        · intro _ h; simp at h
        · intro hc _ _
          simp [bind_no_key, apply_attempt, hc]
      | some key =>
        refine ⟨rfl, by simp [bind_no_key], rfl, ?_, ?_, ?_⟩
        · intro _ h; simp at h
        · intro _ h; simp at h
        · intro _ _ h; simp at h
  | completed k =>
    cases k with
    | none =>
      refine ⟨rfl, by simp [bind_no_key], rfl, ?_, ?_, ?_⟩
      · intro h; simp at h
      · intro hc _
        simp [bind_no_key, apply_attempt, hc]
      · intro _ h; simp at h
    | some key =>
      refine ⟨rfl, by simp [bind_no_key], rfl, ?_, ?_, ?_⟩
      · intro h; simp at h
      · intro _ h; simp at h
      · intro _ h; simp at h

/-- C8 witness: on a fresh device, two timeouts give the trace
`[V1, V2]` and the timeout error. -/
theorem bind_tries_v1_then_v2_witness :
    (bind_no_key DeviceState.init .timeout .timeout).2.2 = some .deviceTimeout ∧
    (bind_no_key DeviceState.init .timeout .timeout).1 = [.v1, .v2] :=
  ⟨(bind_tries_v1_then_v2 DeviceState.init .timeout .timeout).2.2.2.1 rfl rfl, rfl⟩

/-- The device of the C7 counterexample: one locally changed property
(`Pow`), not yet bound to any cipher. -/
def push_counterexample_input : DeviceState :=
  { DeviceState.init with properties := [("Pow", 1)], dirty := ["Pow"] }

/-- C7 counterexample: `push_state_update` on an unbound device whose
implicit bind times out raises the timeout error with the dirty set
left intact (and nothing sent) — so "after any call that raises a
timeout error the DirtySet is empty" fails. -/
theorem push_dirty_counterexample :
    (push_state_update push_counterexample_input .timeout .timeout .ok).2.2 =
      some .deviceTimeout ∧
    (push_state_update push_counterexample_input .timeout .timeout .ok).2.1 =
      none ∧
    (push_state_update push_counterexample_input .timeout .timeout .ok).1.dirty =
      ["Pow"] ∧
    (["Pow"] : List String) ≠ [] := by
  refine ⟨rfl, rfl, rfl, ?_⟩
  intro h
  simp at h

/-- C7 amended: a call with an empty DirtySet is a no-op — no bind, no
send, no state change; when the device is already bound, or the
implicit bind succeeds, the DirtySet is empty after the call whether
the send returns normally or times out (with the payload actually
sent); but when the implicit bind itself fails, the error propagates
with nothing sent and the DirtySet unchanged. -/
theorem push_clears_dirty_amended (s : DeviceState) (o1 o2 : AttemptOutcome)
    (send : SendOutcome) (e : DevErr) :
    (s.dirty = [] → push_state_update s o1 o2 send = (s, none, none)) ∧
    (s.dirty ≠ [] → s.deviceCipher.isSome = true →
      (push_state_update s o1 o2 send).1.dirty = [] ∧
      (push_state_update s o1 o2 send).2.1 = some (push_props s) ∧
      (send = .ok → (push_state_update s o1 o2 send).2.2 = none) ∧
      (send = .timeout →
        (push_state_update s o1 o2 send).2.2 = some .deviceTimeout)) ∧
    (s.dirty ≠ [] → s.deviceCipher = none → (bind_no_key s o1 o2).2.2 = none →
      (push_state_update s o1 o2 send).1.dirty = []) ∧
    (s.dirty ≠ [] → s.deviceCipher = none → (bind_no_key s o1 o2).2.2 = some e →
      push_state_update s o1 o2 send =
        ((bind_no_key s o1 o2).2.1, none, some e) ∧
      (bind_no_key s o1 o2).2.1.dirty = s.dirty) := by
  refine ⟨?_, ?_, ?_, ?_⟩
  · intro hd
    simp [push_state_update, hd]
  · intro hd hc
    match hcm : s.deviceCipher with
    | none => rw [hcm] at hc; simp at hc
    | some c =>
      cases send <;> simp [push_state_update, hd, hcm]
  · intro hd hc hb
    cases send <;> simp [push_state_update, hd, hc, hb]
  · intro hd hc hb
    have hdirty : ∀ v o, (apply_attempt s v o).dirty = s.dirty := by
      intro v o
      cases o with
      | timeout => rfl
      | completed k => cases k <;> rfl
    constructor
    · cases send <;> simp [push_state_update, hd, hc, hb]
    · cases o1 with
      | timeout =>
        cases o2 with
        | timeout =>
          simp [bind_no_key]
        | completed k => simpa [bind_no_key] using hdirty .v2 (.completed k)
      | completed k => simpa [bind_no_key] using hdirty .v1 (.completed k)

/-- C7 amended, witness: a bound device with one dirty key has an empty
dirty set after a push whose send times out. -/
theorem push_clears_dirty_amended_witness :
    (push_state_update
      { DeviceState.init with
        properties := [("Pow", 1)], dirty := ["Pow"],
        deviceCipher := some { variant := .v1, key := some "k" } }
      .timeout .timeout .timeout).1.dirty = [] ∧
    (push_state_update
      { DeviceState.init with
        properties := [("Pow", 1)], dirty := ["Pow"],
        deviceCipher := some { variant := .v1, key := some "k" } }
      .timeout .timeout .timeout).2.2 = some .deviceTimeout := by
  have h := (push_clears_dirty_amended
    { DeviceState.init with
      properties := [("Pow", 1)], dirty := ["Pow"],
      deviceCipher := some { variant := .v1, key := some "k" } }
    .timeout .timeout .timeout .deviceTimeout).2.1 (by simp) rfl
  exact ⟨h.1, h.2.2.2 rfl⟩

/-- C9: a timeout cycle increments the consecutive-error counter and
reports failure exactly when the previous cycle was considered
successful and the counter has reached the threshold; a successful
non-stale cycle resets the counter to zero without failing.  With
threshold 3 and 30-second polls: three consecutive timeouts fail on
the third; after a success in between, two further timeouts stay
healthy and only a third fresh timeout fails again. -/
theorem coordinator_error_threshold (cfg : CoordConfig) (st : CoordState)
    (now : Int) :
    ((coordinator_step cfg st .timeout now).errorCount = st.errorCount + 1) ∧
    (cycle_failed cfg st .timeout now =
      (st.lastUpdateSuccess && decide (cfg.maxErrors ≤ st.errorCount + 1))) ∧
    (now - st.lastResponseTime < cfg.maxExpected → 1 ≤ cfg.maxErrors →
      (coordinator_step cfg st .success now).errorCount = 0 ∧
      cycle_failed cfg st .success now = false) ∧
    (cycle_failed coord_cfg3 coord_healthy .timeout 30 = false ∧
      cycle_failed coord_cfg3
        (coord_run coord_cfg3 coord_healthy [(.timeout, 30)]) .timeout 60 =
        false ∧
      cycle_failed coord_cfg3
        (coord_run coord_cfg3 coord_healthy [(.timeout, 30), (.timeout, 60)])
        .timeout 90 = true ∧
      (coord_run coord_cfg3 coord_healthy
        [(.timeout, 30), (.timeout, 60), (.timeout, 90),
          (.success, 120)]).errorCount = 0 ∧
      cycle_failed coord_cfg3
        (coord_run coord_cfg3 coord_healthy
          [(.timeout, 30), (.timeout, 60), (.timeout, 90), (.success, 120)])
        .timeout 150 = false ∧
      cycle_failed coord_cfg3
        (coord_run coord_cfg3 coord_healthy
          [(.timeout, 30), (.timeout, 60), (.timeout, 90), (.success, 120),
            (.timeout, 150)]) .timeout 180 = false ∧
      cycle_failed coord_cfg3
        (coord_run coord_cfg3 coord_healthy
          [(.timeout, 30), (.timeout, 60), (.timeout, 90), (.success, 120),
            (.timeout, 150), (.timeout, 180)]) .timeout 210 = true) := by
  refine ⟨?_, ?_, ?_, by decide⟩
  · simp only [coordinator_step, async_update_data]
    split <;> rfl
  · simp only [cycle_failed, async_update_data]
    by_cases hs : st.lastUpdateSuccess
    · by_cases hm : cfg.maxErrors ≤ st.errorCount + 1
      · rw [if_pos ⟨hs, hm⟩]; simp [hs, hm]
      · rw [if_neg ?_]
        · simp [hs, hm]
        · rintro ⟨-, h⟩; exact hm h
    · rw [if_neg ?_]
      · simp [Bool.not_eq_true] at hs
        simp [hs]
      · rintro ⟨h, -⟩; exact hs h
  · intro hfresh hmax
    have hcond : ¬(cfg.updateInterval ≠ 0 ∧ now - st.lastResponseTime ≥ cfg.maxExpected) := by
      rintro ⟨-, h⟩; omega
    have hraise : ¬(({ st with errorCount := 0 } : CoordState).lastUpdateSuccess ∧
        ({ st with errorCount := 0 } : CoordState).errorCount ≥ cfg.maxErrors) := by
      rintro ⟨-, h⟩
      simp at h
      omega
    constructor
    · simp only [coordinator_step, async_update_data]
      rw [if_neg hcond, if_neg hraise]
    · simp only [cycle_failed, async_update_data]
      rw [if_neg hcond, if_neg hraise]

/-- C9 witness: a fresh success right after the healthy state keeps the
counter at zero and does not fail, and a first timeout does not fail
with threshold 3. -/
theorem coordinator_error_threshold_witness :
    ((coordinator_step coord_cfg3 coord_healthy .success 10).errorCount = 0 ∧
      cycle_failed coord_cfg3 coord_healthy .success 10 = false) ∧
    cycle_failed coord_cfg3 coord_healthy .timeout 30 = false :=
  ⟨(coordinator_error_threshold coord_cfg3 coord_healthy 10).2.2.1 (by decide)
      (by decide),
   (coordinator_error_threshold coord_cfg3 coord_healthy 30).2.2.2.1⟩

theorem pythonRound_bounds (q : ℚ) :
    q - 1 / 2 ≤ (pythonRound q : ℚ) ∧ (pythonRound q : ℚ) ≤ q + 1 / 2 := by
  have h1 : (⌊q⌋ : ℚ) ≤ q := Int.floor_le q
  have h2 : q < ⌊q⌋ + 1 := Int.lt_floor_add_one q
  have hr : pythonRound q =
      if q - (⌊q⌋ : ℚ) < 1 / 2 then ⌊q⌋
      else if 1 / 2 < q - (⌊q⌋ : ℚ) then ⌊q⌋ + 1
      else if ⌊q⌋ % 2 = 0 then ⌊q⌋ else ⌊q⌋ + 1 := rfl
  rw [hr]
  split_ifs <;> constructor <;> push_cast <;> linarith

theorem temSet_of_gen (v : Int) :
    (generate_temperature_record v).temSet = pythonRound (((v : ℚ) - 32) * 5 / 9) :=
  rfl

/-- Where `round((f - 32) * 5 / 9)` lands for the Fahrenheit ranges the
setter distinguishes: inside `[46, 86]` it lands in `[8, 30]`, below 46
it lands below 8, above 86 it lands above 30. -/
theorem temSet_setter_ranges (v : Int) :
    (46 ≤ v → v ≤ 86 →
      TEMP_MIN ≤ (generate_temperature_record v).temSet ∧
      (generate_temperature_record v).temSet ≤ TEMP_MAX) ∧
    (v ≤ 45 → (generate_temperature_record v).temSet < TEMP_MIN) ∧
    (87 ≤ v → TEMP_MAX < (generate_temperature_record v).temSet) := by
  obtain ⟨hb1, hb2⟩ := pythonRound_bounds (((v : ℚ) - 32) * 5 / 9)
  rw [temSet_of_gen]
  unfold TEMP_MIN TEMP_MAX
  refine ⟨?_, ?_, ?_⟩
  · intro hv1 hv2
    have hq1 : (46 : ℚ) ≤ (v : ℚ) := by exact_mod_cast hv1
    have hq2 : ((v : ℚ)) ≤ 86 := by exact_mod_cast hv2
    constructor
    · have h : (7 : ℚ) < (pythonRound (((v : ℚ) - 32) * 5 / 9) : ℚ) := by linarith
      have h7 : (7 : ℤ) < pythonRound (((v : ℚ) - 32) * 5 / 9) := by exact_mod_cast h
      omega
    · have h : (pythonRound (((v : ℚ) - 32) * 5 / 9) : ℚ) < 31 := by linarith
      have h31 : pythonRound (((v : ℚ) - 32) * 5 / 9) < (31 : ℤ) := by exact_mod_cast h
      omega
  · intro hv
    have hq : ((v : ℚ)) ≤ 45 := by exact_mod_cast hv
    have h : (pythonRound (((v : ℚ) - 32) * 5 / 9) : ℚ) < 8 := by linarith
    have h8 : pythonRound (((v : ℚ) - 32) * 5 / 9) < (8 : ℤ) := by exact_mod_cast h
    omega
  · intro hv
    have hq : (87 : ℚ) ≤ (v : ℚ) := by exact_mod_cast hv
    have h : (30 : ℚ) < (pythonRound (((v : ℚ) - 32) * 5 / 9) : ℚ) := by linarith
    have h30 : (30 : ℤ) < pythonRound (((v : ℚ) - 32) * 5 / 9) := by exact_mod_cast h
    omega

/-- C4: the target-temperature setter validates the range before any
mutation: in Celsius mode values outside `[8, 30]` raise the range
error with the device state unchanged, and `8` and `30` themselves
succeed; in Fahrenheit mode values outside `[46, 86]` raise with the
state unchanged, and values inside succeed.  No network activity is
modelled because the setter performs none. -/
theorem target_temperature_setter_range (s : DeviceState) (v : Int) :
    (temperature_units s ≠ some 1 →
      ((v < TEMP_MIN ∨ TEMP_MAX < v) →
        target_temperature_set s v = (s, some .valueError)) ∧
      (TEMP_MIN ≤ v → v ≤ TEMP_MAX → (target_temperature_set s v).2 = none)) ∧
    (temperature_units s = some 1 →
      ((v < TEMP_MIN_F ∨ TEMP_MAX_F < v) →
        target_temperature_set s v = (s, some .valueError)) ∧
      (TEMP_MIN_F ≤ v → v ≤ TEMP_MAX_F →
        (target_temperature_set s v).2 = none)) := by
  constructor
  · intro hu
    unfold target_temperature_set
    rw [if_neg hu]
    constructor
    · intro h
      rw [if_pos ?_]
      simp only [TEMP_MIN, TEMP_MAX] at h ⊢
      omega
    · intro h1 h2
      rw [if_neg ?_]
      simp only [TEMP_MIN, TEMP_MAX] at h1 h2 ⊢
      omega
  · intro hu
    unfold target_temperature_set
    rw [if_pos hu]
    have hr := temSet_setter_ranges v
    constructor
    · intro h
      rw [if_pos ?_]
      simp only [TEMP_MIN_F, TEMP_MAX_F] at h
      rcases h with h | h
      · right; exact hr.2.1 (by omega)
      · left; exact hr.2.2 (by omega)
    · intro h1 h2
      rw [if_neg ?_]
      simp only [TEMP_MIN_F, TEMP_MAX_F] at h1 h2
      obtain ⟨hlo, hhi⟩ := hr.1 h1 h2
      omega

/-- C4 witness: in Celsius mode 8 succeeds and 7 raises with the state
unchanged; in Fahrenheit mode 46 succeeds and 45 raises unchanged. -/
theorem target_temperature_setter_range_witness :
    (target_temperature_set DeviceState.init 8).2 = none ∧
    target_temperature_set DeviceState.init 7 =
      (DeviceState.init, some .valueError) ∧
    (target_temperature_set
      { DeviceState.init with properties := [("TemUn", 1)] } 46).2 = none ∧
    target_temperature_set
      { DeviceState.init with properties := [("TemUn", 1)] } 45 =
      ({ DeviceState.init with properties := [("TemUn", 1)] },
        some .valueError) := by
  refine ⟨?_, ?_, ?_, ?_⟩
  · exact ((target_temperature_setter_range DeviceState.init 8).1 (by decide)).2
      (by decide) (by decide)
  · exact ((target_temperature_setter_range DeviceState.init 7).1 (by decide)).1
      (by decide)
  · exact ((target_temperature_setter_range
      { DeviceState.init with properties := [("TemUn", 1)] } 46).2 (by decide)).2
      (by decide) (by decide)
  · exact ((target_temperature_setter_range
      { DeviceState.init with properties := [("TemUn", 1)] } 45).2 (by decide)).1
      (by decide)

theorem gen_mem_table (f : Int) (h1 : TEMP_MIN_TABLE_F ≤ f)
    (h2 : f ≤ TEMP_MAX_TABLE_F) :
    generate_temperature_record f ∈ TEMP_TABLE := by
  unfold TEMP_TABLE
  rw [List.mem_map]
  refine ⟨(f - TEMP_MIN_TABLE_F).toNat, ?_, ?_⟩
  · rw [List.mem_range]
    simp only [TEMP_MIN_TABLE_F, TEMP_MAX_TABLE_F] at *
    omega
  · congr 1
    simp only [TEMP_MIN_TABLE_F] at *
    omega

theorem temSet_table_range (f : Int) (h1 : TEMP_MIN_TABLE_F ≤ f)
    (h2 : f ≤ TEMP_MAX_TABLE_F) :
    TEMP_MIN_TABLE ≤ (generate_temperature_record f).temSet ∧
    (generate_temperature_record f).temSet ≤ TEMP_MAX_TABLE := by
  obtain ⟨hb1, hb2⟩ := pythonRound_bounds (((f : ℚ) - 32) * 5 / 9)
  rw [temSet_of_gen]
  simp only [TEMP_MIN_TABLE_F, TEMP_MAX_TABLE_F] at h1 h2
  have hq1 : (-76 : ℚ) ≤ (f : ℚ) := by exact_mod_cast h1
  have hq2 : ((f : ℚ)) ≤ 140 := by exact_mod_cast h2
  simp only [TEMP_MIN_TABLE, TEMP_MAX_TABLE]
  constructor
  · have h : (-61 : ℚ) < (pythonRound (((f : ℚ) - 32) * 5 / 9) : ℚ) := by linarith
    have hi : (-61 : ℤ) < pythonRound (((f : ℚ) - 32) * 5 / 9) := by exact_mod_cast h
    omega
  · have h : (pythonRound (((f : ℚ) - 32) * 5 / 9) : ℚ) < 61 := by linarith
    have hi : pythonRound (((f : ℚ) - 32) * 5 / 9) < (61 : ℤ) := by exact_mod_cast h
    omega

/-- Reverse lookup through the table always lands on a table row when
the Celsius value is in table range and some row carries it. -/
theorem convert_to_units_table (c : Int) (bit : Option Int)
    (hlo : TEMP_MIN_TABLE ≤ c) (hhi : c ≤ TEMP_MAX_TABLE)
    (hne : ∃ t ∈ TEMP_TABLE, t.temSet = c) :
    ∃ fr, convert_to_units (some 1) (some c) bit = .ok (some fr) ∧
      fr ∈ TEMP_TABLE.map TempRecord.f := by
  obtain ⟨t0, ht0, ht0c⟩ := hne
  have hmf : t0 ∈ TEMP_TABLE.filter (fun t => t.temSet == c) :=
    List.mem_filter.mpr ⟨ht0, by simp [ht0c]⟩
  have hsome : convert_to_units (some 1) (some c) bit =
      if (some 1 : Option Int) ≠ some 1 then .ok (some c)
      else if c < TEMP_MIN_TABLE ∨ c > TEMP_MAX_TABLE then .error .valueError
      else
        match (TEMP_TABLE.filter (fun t => t.temSet == c)).find?
            (fun t => bit == some t.temRec) with
        | some t => .ok (some t.f)
        | none =>
          match TEMP_TABLE.filter (fun t => t.temSet == c) with
          | [] => .error .indexError
          | t :: _ => .ok (some t.f) := rfl
  have hred : convert_to_units (some 1) (some c) bit =
      match (TEMP_TABLE.filter (fun t => t.temSet == c)).find?
          (fun t => bit == some t.temRec) with
      | some t => .ok (some t.f)
      | none =>
        match TEMP_TABLE.filter (fun t => t.temSet == c) with
        | [] => .error .indexError
        | t :: _ => .ok (some t.f) := by
    rw [hsome, if_neg (by simp), if_neg ?_]
    simp only [TEMP_MIN_TABLE, TEMP_MAX_TABLE] at hlo hhi ⊢
    omega
  rw [hred]
  cases hfind : (TEMP_TABLE.filter (fun t => t.temSet == c)).find?
      (fun t => bit == some t.temRec) with
  | some t =>
    refine ⟨t.f, rfl, ?_⟩
    have ht : t ∈ TEMP_TABLE.filter (fun t => t.temSet == c) :=
      List.mem_of_find?_eq_some hfind
    exact List.mem_map_of_mem TempRecord.f (List.mem_filter.mp ht).1
  | none =>
    cases hm : TEMP_TABLE.filter (fun t => t.temSet == c) with
    | nil => rw [hm] at hmf; simp at hmf
    | cons t rest =>
      refine ⟨t.f, rfl, ?_⟩
      have ht : t ∈ TEMP_TABLE.filter (fun t => t.temSet == c) := by
        rw [hm]; exact List.mem_cons_self t rest
      exact List.mem_map_of_mem TempRecord.f (List.mem_filter.mp ht).1

/-- C5: for every integer Fahrenheit value in `[-76, 140]`, converting
to the (Celsius, compensation-bit) pair with the table formula and back
through the reverse lookup yields a Fahrenheit value present in the
table, and the reverse lookup is a function of the (Celsius, bit)
input, hence deterministic. -/
theorem temperature_table_roundtrip (f : Int) (h1 : TEMP_MIN_TABLE_F ≤ f)
    (h2 : f ≤ TEMP_MAX_TABLE_F) :
    (∃ fr, convert_to_units (some 1)
        (some (generate_temperature_record f).temSet)
        (some (generate_temperature_record f).temRec) = .ok (some fr) ∧
      fr ∈ TEMP_TABLE.map TempRecord.f) ∧
    (∀ c b r1 r2, convert_to_units (some 1) c b = r1 →
      convert_to_units (some 1) c b = r2 → r1 = r2) := by
  constructor
  · obtain ⟨hlo, hhi⟩ := temSet_table_range f h1 h2
    exact convert_to_units_table (generate_temperature_record f).temSet
      (some (generate_temperature_record f).temRec) hlo hhi
      ⟨generate_temperature_record f, gen_mem_table f h1 h2, rfl⟩
  · intro c b r1 r2 e1 e2
    rw [← e1, ← e2]

/-- C5 witness: the round trip at 100 °F (Celsius 38, bit 1) returns a
table Fahrenheit value. -/
theorem temperature_table_roundtrip_witness :
    ∃ fr, convert_to_units (some 1)
        (some (generate_temperature_record 100).temSet)
        (some (generate_temperature_record 100).temRec) = .ok (some fr) ∧
      fr ∈ TEMP_TABLE.map TempRecord.f :=
  (temperature_table_roundtrip 100 (by decide) (by decide)).1

end GreeAmber
